import Mathlib

/- Shallow embedding of src/bfg.py, the orchestration front-end of the
   bl-bfg credential brute-forcing toolkit.  YAML values are modelled as an
   inductive type; mappings keep insertion order as association lists, the
   behaviour of Python dicts.  The normalization logic of the __main__ block
   is translated into pure functions: raised exceptions become error values
   and the sequence of dispatcher invocations is made explicit. -/

/-- YAML values as produced by yaml.SafeLoader: strings, integers, booleans,
mappings (ordered association lists, matching insertion-ordered Python
dicts) and sequences. -/
inductive Value where
  | vstr  (s : String) : Value
  | vint  (n : Int) : Value
  | vbool (b : Bool) : Value
  | vdict (es : List (String × Value)) : Value
  | vlist (l : List Value) : Value

mutual

/-- Python repr() restricted to the embedded value type: strings gain single
quotes (escape-free strings assumed), booleans render capitalized, sequences
and mappings render elementwise. -/
def pyRepr : Value → String
  | .vstr s => "\x27" ++ s ++ "\x27"
  | .vint n => toString n
  | .vbool b => if b then "True" else "False"
  | .vdict es => "\x7b" ++ String.intercalate ", " (pyReprDict es) ++ "\x7d"
  | .vlist l => "[" ++ String.intercalate ", " (pyReprList l) ++ "]"

/-- Elementwise repr() over a sequence, as Python list display does. -/
def pyReprList : List Value → List String
  | [] => []
  | v :: vs => pyRepr v :: pyReprList vs

/-- Entrywise repr() over a mapping, as Python dict display does. -/
def pyReprDict : List (String × Value) → List String
  | [] => []
  | e :: es => ("\x27" ++ e.1 ++ "\x27: " ++ pyRepr e.2) :: pyReprDict es

end

/-- Python str(): identical to repr() except on strings, which render
verbatim. -/
def pyStr : Value → String
  | .vstr s => s
  | v => pyRepr v

/-- Python str.lower() on ASCII content (the only strings it is applied to
here are "True" and "False"). -/
def asciiLower (s : String) : String :=
  String.mk (s.data.map Char.toLower)

/-- Python k.replace("_", "-"): the pattern is a single character, so this
is a character map. -/
def replUnderscore (s : String) : String :=
  String.mk (s.data.map fun c => if c = '_' then '-' else c)

/-- FLAG_TEMPLATE of bfg.py line 19: the string --flag=value assembled from
a flag name and a value. -/
def fmtFlag (flag value : String) : String :=
  "--" ++ flag ++ "=" ++ value

/-- Membership test for a key of a mapping, Python k in d.keys(). -/
def hasKey (k : String) (l : List (String × Value)) : Bool :=
  l.any fun e => e.1 == k

/-- Key lookup in a mapping, Python d[k] (dict keys are unique, so the
first match is the only one). -/
def plook (k : String) (l : List (String × Value)) : Option Value :=
  (l.find? fun e => e.1 == k).map fun e => e.2

/-- Filesystem status of a path, abstracting Path.exists / Path.is_file:
a path is missing, a regular file, or some other existing object. -/
inductive FSKind where
  | missing : FSKind
  | file : FSKind
  | other : FSKind
deriving DecidableEq

/-- Path.exists(): true unless the path is missing. -/
def fsExists : FSKind → Bool
  | .missing => false
  | _ => true

/-- Path.is_file(): true exactly for a regular file. -/
def fsIsFile : FSKind → Bool
  | .file => true
  | _ => false

/-- findFile of bfg.py lines 34-50: raises FileNotFoundError when
`not path.exists() and path.is_file()` holds, otherwise returns the path.
The filesystem status of the path is passed explicitly. -/
def findFile (kind : FSKind) (path : String) : Except String String :=
  if !(fsExists kind) && fsIsFile kind then
    .error "FileNotFoundError"
  else
    .ok path

/-- get_user_input of bfg.py lines 82-97: re-reads responses while the
response differs from both "y" and "n", then returns it.  The operator's
responses are passed as a list; none is returned when the stream is
exhausted without "y" or "n" (the Python loop would still be waiting). -/
def get_user_input : List String → Option String
  | [] => none
  | r :: rs => if r != "y" && r != "n" then get_user_input rs else some r

/-- The inline confirmation loop of run_db_command, bfg.py lines 131-141:
identical structure to get_user_input, reading until "y" or "n". -/
def dbCreatePrompt : List String → Option String
  | [] => none
  | r :: rs => if r != "y" && r != "n" then dbCreatePrompt rs else some r

/-- Per-entry token production of the manage-db loop, bfg.py lines 266-275:
a list value expands to one str() token per element, a boolean becomes
str(value).lower(), anything else becomes str(value); the tokens follow the
flag token `--flag` built without any character replacement. -/
def dbEntryTokens (flag : String) (values : Value) : List String :=
  match values with
  | .vlist l => ("--" ++ flag) :: l.map pyStr
  | .vbool b => [("--" ++ flag), asciiLower (pyStr (.vbool b))]
  | v => [("--" ++ flag), pyStr v]

/-- ValueError message of bfg.py lines 259-262. -/
def dictErrMsg : String :=
  "All db-management subcommands should be configured with a dictionary of supporting arguments."

/-- The manage-db loop of bfg.py lines 253-277: for each operation whose
value is a mapping, the dispatcher is invoked with [cmd, db_arg] followed by
the entry tokens in document order; a non-mapping value raises ValueError,
aborting before that operation is dispatched.  Returns the dispatcher
invocations performed together with the error, if one was raised. -/
def normalizeDb (dbArg : String) : List (String × Value) → List (List String) × Option String
  | [] => ([], none)
  | (cmd, argset) :: rest =>
    match argset with
    | .vdict entries =>
      let tokens := cmd :: dbArg :: entries.flatMap fun e => dbEntryTokens e.1 e.2
      let r := normalizeDb dbArg rest
      (tokens :: r.1, r.2)
    | _ => ([], some dictErrMsg)

/-- One module argument token, bfg.py lines 329-332: the flag name has
underscores replaced by hyphens and the value is formatted (str()) into the
flag template with no boolean lowering and no sequence expansion. -/
def moduleArgToken (ik : String) (iv : Value) : String :=
  fmtFlag (replUnderscore ik) (pyStr iv)

/-- Value of a non-module attack parameter, bfg.py lines 302-307: booleans
are replaced by str(value).lower() before formatting, every other value is
formatted (str()) directly — note: no sequence expansion here. -/
def bruteVal : Value → String
  | .vbool b => asciiLower (pyStr (.vbool b))
  | v => pyStr v

/-- Token production for a non-module attack parameter, bfg.py
lines 302-307: one token per key, flag name hyphenated. -/
def bruteEntryTokens (k : String) (v : Value) : List String :=
  [fmtFlag (replUnderscore k) (bruteVal v)]

/-- Module-entry handling of the attack loop, bfg.py lines 315-332: the
module value must carry name and args keys, else ValueError; the raw name
value is appended (modelled through str(), since argparse tokens are
strings) followed by one token per args entry.  A non-mapping module value
or non-mapping args value would make the Python in / .items() operations
fail; both are rendered as a TypeError value (no claim exercises them). -/
def moduleTokens (v : Value) : Except String (List String) :=
  match v with
  | .vdict m =>
    if !(hasKey "name" m) then
      .error "\"name\" field must be defined under \"module\"."
    else if !(hasKey "args" m) then
      .error "\"args\" field must be defined under \"module\"."
    else
      match plook "name" m, plook "args" m with
      | some nm, some (.vdict margs) =>
        .ok (pyStr nm :: margs.map fun e => moduleArgToken e.1 e.2)
      | _, _ => .error "TypeError"
  | _ => .error "TypeError"

/-- The attack translation loop of bfg.py lines 294-332: entries are
processed in document order, the module entry contributing its name token
and argument tokens at its own position, every other entry one flag
token. -/
def bruteLoop : List (String × Value) → Except String (List String)
  | [] => .ok []
  | (k, v) :: rest =>
    match (if k == "module" then moduleTokens v else .ok (bruteEntryTokens k v)) with
    | .error e => .error e
    | .ok ts =>
      match bruteLoop rest with
      | .error e => .error e
      | .ok rs => .ok (ts ++ rs)

/-- Attack-section normalization of bfg.py lines 283-335: a falsy (empty)
section is skipped entirely and no attack token sequence is produced; a
non-empty section must contain the module key, else ValueError; otherwise
the token sequence starts with the --database flag (brute_cli_args,
line 247) followed by the loop's tokens. -/
def normalizeBrute (dbArg : String) (bfArgs : List (String × Value)) :
    Except String (Option (List String)) :=
  if bfArgs.isEmpty then .ok none
  else if !(hasKey "module" bfArgs) then
    .error "\"module\" field must be set in the YAML file."
  else
    match bruteLoop bfArgs with
    | .error e => .error e
    | .ok ts => .ok (some (dbArg :: ts))

/-- Outcome of processing a YAML document: the dispatcher invocations
performed, the attack token sequence handed to the brute-force grammar
(none when no attack section was processed), and the raised error, if
any. -/
structure YamlOutcome where
  invocations : List (List String)
  attackTokens : Option (List String)
  err : Option String
deriving DecidableEq

/-- yargs.get(key, \x7b\x7d) of bfg.py lines 244-245, restricted to mapping
values: an absent key yields the empty section.  A present non-mapping
truthy value would crash the Python iteration later; no claim exercises
that shape and it is mapped to the empty section here. -/
def sectionOf (k : String) (doc : List (String × Value)) : List (String × Value) :=
  match plook k doc with
  | some (.vdict l) => l
  | _ => []

/-- The YAML branch of bfg.py lines 231-335 after the file is read: the
database key is required (parseYml key_checks, lines 70-78 with the message
of lines 76-78), its string value builds the --database flag (line 242),
the manage-db section drives dispatcher invocations, and the brute-force
section produces the attack token sequence.  A non-string database value
would fail Python string concatenation; modelled as TypeError. -/
def processYaml (doc : List (String × Value)) : YamlOutcome :=
  if !(hasKey "database" doc) then
    ⟨[], none, some "\"database\" value must be set in the base of the YAML file."⟩
  else
    match plook "database" doc with
    | some (.vstr db) =>
      let dbArg := "--database=" ++ db
      let r := normalizeDb dbArg (sectionOf "manage-db" doc)
      match r.2 with
      | some e => ⟨r.1, none, some e⟩
      | none =>
        match normalizeBrute dbArg (sectionOf "brute-force" doc) with
        | .error e => ⟨r.1, none, some e⟩
        | .ok bt => ⟨r.1, bt, none⟩
    | _ => ⟨[], none, some "TypeError"⟩

/-- Outcome of running the attack engine inside the orchestrator's try
block: either the launch completes or it raises an exception carrying a
message. -/
inductive EngineResult where
  | completed : EngineResult
  | raised (msg : String) : EngineResult
deriving DecidableEq

/-- What the orchestrator leaves behind: the lines it reported and the exit
status of the process. -/
structure LaunchOutcome where
  output : List String
  exitCode : Nat
deriving DecidableEq

/-- The launch try/except of bfg.py lines 395-412: on success the general
events are logged and the script ends (exit status 0); on an exception the
handler prints a blank line, the banner, the message, and the traceback
(the repr/dir/lineno debug prints are folded into the traceback marker),
then falls off the end of the script — nothing re-raises and no exit code
is set, so the process still terminates with exit status 0. -/
def launchCampaign : EngineResult → LaunchOutcome
  | .completed => ⟨["Initializing attack", "Attack complete"], 0⟩
  | .raised msg =>
    ⟨["Initializing attack", "", "Unhandled exception occurred.", msg,
      "traceback", "", ""], 0⟩

/-- Last value bound to a --flag= token by an argparse-style scan, later
occurrences overriding earlier ones. -/
def flagValue (flag : String) (tokens : List String) : Option String :=
  (tokens.filterMap fun t =>
    let pre := "--" ++ flag ++ "="
    if pre.data.isPrefixOf t.data then some (String.mk (t.data.drop pre.data.length))
    else none).getLast?

/-- Decimal digit of a character, when it is one. -/
def charDigit (c : Char) : Option Nat :=
  if c.isDigit then some (c.toNat - 48) else none

/-- Decimal parse of a string, none on empty or non-digit input. -/
def strToNat (s : String) : Option Nat :=
  if s.data.isEmpty then none
  else s.data.foldl (fun acc c =>
    match acc, charDigit c with
    | some a, some d => some (a * 10 + d)
    | _, _ => none) (some 0)

/-- The execution configuration fields this layer's claims observe; the
remaining engine fields are opaque externals per the spec's scope. -/
structure ExecutionConfig where
  process_count : Nat
  db_file : String
deriving DecidableEq

/-- Modelled from the spec: the brute-force argument grammar comes from the
bfg package's module parser, which is not under src/.  Per the spec the
grammar accepts --flag=value tokens, and the assembler (bfg.py lines
357-375) copies the parsed process_count into ExecutionConfig.process_count
and the parsed database into ExecutionConfig.db_file. -/
def assembleConfig (tokens : List String) : Option ExecutionConfig :=
  match flagValue "process-count" tokens, flagValue "database" tokens with
  | some pc, some db =>
    match strToNat pc with
    | some n => some ⟨n, db⟩
    | none => none
  | _, _ => none

/-- Boolean subsequence test: holds when the first list occurs inside the
second in order, not necessarily contiguously. -/
def isSubseqOf : List String → List String → Bool
  | [], _ => true
  | _ :: _, [] => false
  | a :: as, b :: bs => if a == b then isSubseqOf as bs else isSubseqOf (a :: as) bs

/-- Auxiliary: the two confirmation loops are the same function of the
response stream. -/
theorem dbCreatePrompt_eq_gui (rs : List String) :
    dbCreatePrompt rs = get_user_input rs := by
  induction rs with
  | nil => rfl
  | cons a as ih => rw [dbCreatePrompt, get_user_input, ih]

/-- Auxiliary: whatever the confirmation loop returns is "y" or "n". -/
theorem gui_spec (rs : List String) (u : String)
    (h : get_user_input rs = some u) : u = "y" ∨ u = "n" := by
  induction rs with
  | nil => simp [get_user_input] at h
  | cons a as ih =>
    rw [get_user_input] at h
    split at h
    · exact ih h
    · rename_i hcond
      injection h with h
      subst h
      exact or_iff_not_imp_left.mpr (by simpa using hcond)

/-- Claim C1 (code bug): findFile never raises.  The guard
`not path.exists() and path.is_file()` on bfg.py line 48 is unsatisfiable,
since a missing path is never a regular file, so every path — existing or
not — is returned as-is; in particular a missing YAML file is returned
instead of raising the FileNotFoundError promised by the function's own
docstring (lines 43-44) and by the spec. -/
theorem findFile_never_raises :
    (∀ (kind : FSKind) (path : String), findFile kind path = .ok path) ∧
    findFile FSKind.missing "nofile.yml" = .ok "nofile.yml" := by
  refine ⟨fun kind path => ?_, rfl⟩
  cases kind <;> rfl

/-- Claim C2 (counterexample): a document whose attack section is present
but empty is a brute-force mapping lacking the module key, yet it is
processed without any error — the empty section is falsy and skipped by
`if bf_args:` on bfg.py line 283, so normalization does not fail with
Invalid as the claim requires. -/
theorem emptyAttackSection_no_error :
    processYaml [("database", Value.vstr "a.db"), ("brute-force", Value.vdict [])] =
      ⟨[], none, none⟩ := rfl

/-- Claim C2 (amended): every non-empty attack section lacking the module
key makes normalization fail with the ValueError of bfg.py lines 286-288
and no attack token sequence is produced; an empty attack section is
skipped without error and likewise produces no attack token sequence. -/
theorem missing_module_invalid (dbArg : String) (bfArgs : List (String × Value))
    (hne : bfArgs ≠ []) (hmod : hasKey "module" bfArgs = false) :
    normalizeBrute dbArg bfArgs =
      .error "\"module\" field must be set in the YAML file." ∧
    normalizeBrute dbArg [] = .ok none := by
  have h1 : bfArgs.isEmpty = false := by
    cases bfArgs with
    | nil => exact absurd rfl hne
    | cons a l => rfl
  exact ⟨by simp [normalizeBrute, h1, hmod], rfl⟩

/-- Claim C2 (witness): amended statement at a concrete non-empty section
lacking the module key. -/
theorem missing_module_invalid_witness :
    normalizeBrute "--database=a.db" [("process_count", Value.vint 4)] =
      .error "\"module\" field must be set in the YAML file." ∧
    normalizeBrute "--database=a.db" [] = .ok none :=
  missing_module_invalid "--database=a.db" [("process_count", Value.vint 4)]
    (List.cons_ne_nil _ _) rfl

/-- Claim C3 (counterexample): a boolean true inside the module's argument
mapping is emitted through str() with no lowering (bfg.py lines 327-332),
producing the token "--verify-ssl=True", which does not contain the
lowercase string "true" anywhere. -/
theorem module_arg_bool_capitalized :
    processYaml [("database", Value.vstr "a.db"),
      ("brute-force", Value.vdict [("module", Value.vdict
        [("name", Value.vstr "ssh"),
         ("args", Value.vdict [("verify_ssl", Value.vbool true)])])])] =
      ⟨[], some ["--database=a.db", "ssh", "--verify-ssl=True"], none⟩ ∧
    ¬ ("true".data <:+: "--verify-ssl=True".data) :=
  ⟨rfl, by decide⟩

/-- Claim C3 (amended): booleans in a management entry and in a top-level
attack parameter emit the lowercase tokens "true"/"false" (bfg.py lines
270-271 and 302-303), but a boolean inside the module's argument mapping is
stringified without lowering and emits capitalized "True"/"False". -/
theorem bool_token_coercion (k : String) :
    dbEntryTokens k (Value.vbool true) = ["--" ++ k, "true"] ∧
    dbEntryTokens k (Value.vbool false) = ["--" ++ k, "false"] ∧
    bruteEntryTokens k (Value.vbool true) = [fmtFlag (replUnderscore k) "true"] ∧
    bruteEntryTokens k (Value.vbool false) = [fmtFlag (replUnderscore k) "false"] ∧
    moduleArgToken k (Value.vbool true) = fmtFlag (replUnderscore k) "True" ∧
    moduleArgToken k (Value.vbool false) = fmtFlag (replUnderscore k) "False" :=
  ⟨rfl, rfl, rfl, rfl, rfl, rfl⟩

/-- Claim C4 (counterexample): a sequence-valued top-level attack parameter
is not expanded — bfg.py lines 302-307 special-case only booleans — so the
whole sequence's textual representation becomes a single token, here
"--wordlists=[\x27a\x27, \x27b\x27]". -/
theorem attack_list_single_token :
    processYaml [("database", Value.vstr "a.db"),
      ("brute-force", Value.vdict [("module", Value.vdict
        [("name", Value.vstr "ssh"),
         ("args", Value.vdict [("port", Value.vint 22)])]),
       ("wordlists", Value.vlist [Value.vstr "a", Value.vstr "b"])])] =
      ⟨[], some ["--database=a.db", "ssh", "--port=22",
        "--wordlists=[\x27a\x27, \x27b\x27]"], none⟩ ∧
    "--wordlists=[\x27a\x27, \x27b\x27]" =
      fmtFlag "wordlists" (pyStr (Value.vlist [Value.vstr "a", Value.vstr "b"])) :=
  ⟨rfl, rfl⟩

/-- Claim C4 (amended): sequences in a management entry expand to one
str() token per element (bfg.py lines 268-269), but a sequence as a
top-level attack parameter or as a module argument is stringified into one
single token holding the whole sequence's textual representation. -/
theorem list_token_coercion (k : String) (l : List Value) :
    dbEntryTokens k (Value.vlist l) = ("--" ++ k) :: l.map pyStr ∧
    bruteEntryTokens k (Value.vlist l) =
      [fmtFlag (replUnderscore k) (pyStr (Value.vlist l))] ∧
    moduleArgToken k (Value.vlist l) = fmtFlag (replUnderscore k) (pyStr (Value.vlist l)) :=
  ⟨rfl, rfl, rfl⟩

/-- Claim C5 (counterexample): a management entry key keeps its underscore
in the emitted flag — bfg.py line 275 interpolates the key verbatim — so
the document key my_file yields the token "--my_file", not "--my-file". -/
theorem db_flag_keeps_underscore :
    processYaml [("database", Value.vstr "a.db"),
      ("manage-db", Value.vdict [("add-creds", Value.vdict
        [("my_file", Value.vstr "x")])])] =
      ⟨[["add-creds", "--database=a.db", "--my_file", "x"]], none, none⟩ ∧
    "--my_file" ≠ "--my-file" :=
  ⟨rfl, by decide⟩

/-- Claim C5 (amended): underscores become hyphens only in attack-section
flags — top-level attack parameters (bfg.py line 306) and module arguments
(line 331) — while management-operation flags keep the document key
verbatim after the "--" marker. -/
theorem flag_hyphenation (k : String) (v : Value) :
    (dbEntryTokens k v).head? = some ("--" ++ k) ∧
    (∃ val, bruteEntryTokens k v = [fmtFlag (replUnderscore k) val]) ∧
    moduleArgToken k v = fmtFlag (replUnderscore k) (pyStr v) := by
  refine ⟨?_, ⟨bruteVal v, rfl⟩, rfl⟩
  cases v <;> rfl

/-- Claim C6: the scenario document with one add-creds management operation
drives exactly one dispatcher invocation whose token sequence is
["add-creds", "--database=a.db", "--file", "c.txt"] in that order, with no
attack tokens and no error. -/
theorem manage_db_scenario :
    processYaml [("database", Value.vstr "a.db"),
      ("manage-db", Value.vdict [("add-creds", Value.vdict
        [("file", Value.vstr "c.txt")])])] =
      ⟨[["add-creds", "--database=a.db", "--file", "c.txt"]], none, none⟩ := rfl

/-- Claim C7 (counterexample): the scenario document declares the module
entry before process_count, so the normalized token sequence is
["--database=a.db", "ssh", "--port=22", "--process-count=4"]; the sequence
["--process-count=4", "ssh", "--port=22"] in that listed order does not
occur in it, even non-contiguously. -/
theorem attack_scenario_order_cex :
    processYaml [("database", Value.vstr "a.db"),
      ("brute-force", Value.vdict [("module", Value.vdict
        [("name", Value.vstr "ssh"),
         ("args", Value.vdict [("port", Value.vint 22)])]),
       ("process_count", Value.vint 4)])] =
      ⟨[], some ["--database=a.db", "ssh", "--port=22", "--process-count=4"], none⟩ ∧
    isSubseqOf ["--process-count=4", "ssh", "--port=22"]
      ["--database=a.db", "ssh", "--port=22", "--process-count=4"] = false :=
  ⟨rfl, rfl⟩

/-- Claim C7 (amended): for the scenario document the normalized attack
token sequence is ["--database=a.db", "ssh", "--port=22",
"--process-count=4"], containing "ssh", "--port=22", "--process-count=4"
in the document's declared order (module before process_count), and the
assembled ExecutionConfig has process_count equal to 4. -/
theorem attack_scenario_amended :
    processYaml [("database", Value.vstr "a.db"),
      ("brute-force", Value.vdict [("module", Value.vdict
        [("name", Value.vstr "ssh"),
         ("args", Value.vdict [("port", Value.vint 22)])]),
       ("process_count", Value.vint 4)])] =
      ⟨[], some ["--database=a.db", "ssh", "--port=22", "--process-count=4"], none⟩ ∧
    isSubseqOf ["ssh", "--port=22", "--process-count=4"]
      ["--database=a.db", "ssh", "--port=22", "--process-count=4"] = true ∧
    assembleConfig ["--database=a.db", "ssh", "--port=22", "--process-count=4"] =
      some ⟨4, "a.db"⟩ :=
  ⟨rfl, rfl, rfl⟩

/-- Claim C8: normalization is order-preserving and deterministic.  The
management normalizer maps a well-formed section to one invocation per
operation, in document order, each invocation listing its entries' tokens
in entry order; the attack loop is a homomorphism for concatenation of
entry lists, so reordering input keys reorders the output token groups
identically; and normalizing the same document twice yields the same
outcome. -/
theorem normalization_order_deterministic :
    (∀ (dbArg : String) (ops : List (String × List (String × Value))),
      normalizeDb dbArg (ops.map fun o => (o.1, Value.vdict o.2)) =
        (ops.map fun o => o.1 :: dbArg :: o.2.flatMap fun e => dbEntryTokens e.1 e.2,
         none)) ∧
    (∀ (l₁ l₂ : List (String × Value)) (t₁ t₂ : List String),
      bruteLoop l₁ = .ok t₁ → bruteLoop l₂ = .ok t₂ →
      bruteLoop (l₁ ++ l₂) = .ok (t₁ ++ t₂)) ∧
    (∀ doc : List (String × Value), processYaml doc = processYaml doc) := by
  refine ⟨fun dbArg ops => ?_, fun l₁ l₂ t₁ t₂ h₁ h₂ => ?_, fun _ => rfl⟩
  · induction ops with
    | nil => rfl
    | cons o ops ih =>
      obtain ⟨cmd, entries⟩ := o
      simp [normalizeDb, ih]
  · induction l₁ generalizing t₁ with
    | nil =>
      rw [bruteLoop] at h₁
      injection h₁ with h₁
      subst h₁
      simpa using h₂
    | cons e rest ih =>
      obtain ⟨k, v⟩ := e
      rw [bruteLoop] at h₁
      cases hh : (if k == "module" then moduleTokens v else Except.ok (bruteEntryTokens k v)) with
      | error msg => rw [hh] at h₁; exact absurd h₁ (by simp)
      | ok ts =>
        rw [hh] at h₁
        cases hr : bruteLoop rest with
        | error msg => rw [hr] at h₁; exact absurd h₁ (by simp)
        | ok rs =>
          rw [hr] at h₁
          injection h₁ with h₁
          have hrec := ih rs hr
          rw [List.cons_append, bruteLoop, hh, hrec, ← h₁, List.append_assoc]

/-- Claim C8 (witness): the concatenation homomorphism of the attack loop
at two concrete singleton entry lists. -/
theorem normalization_order_deterministic_witness :
    bruteLoop ([("a", Value.vint 1)] ++ [("b", Value.vbool true)]) =
      .ok (["--a=1"] ++ ["--b=true"]) :=
  normalization_order_deterministic.2.1 [("a", Value.vint 1)] [("b", Value.vbool true)]
    ["--a=1"] ["--b=true"] rfl rfl

/-- Claim C9 (counterexample): when the engine raises during launch, the
except block of bfg.py lines 402-412 only prints — nothing re-raises and no
exit status is set — so the script falls off its end and the process exits
with status 0, not a non-zero status. -/
theorem launch_failure_exit_zero :
    (launchCampaign (EngineResult.raised "boom")).exitCode = 0 := rfl

/-- Claim C9 (amended): for every unhandled exception raised during
campaign launch, the process reports the full failure context — the
exception message plus the call trace — but then terminates normally with
exit status zero, since the handler neither re-raises nor sets a non-zero
exit code. -/
theorem launch_failure_reported (msg : String) :
    msg ∈ (launchCampaign (EngineResult.raised msg)).output ∧
    "Unhandled exception occurred." ∈ (launchCampaign (EngineResult.raised msg)).output ∧
    "traceback" ∈ (launchCampaign (EngineResult.raised msg)).output ∧
    (launchCampaign (EngineResult.raised msg)).exitCode = 0 := by
  refine ⟨?_, ?_, ?_, rfl⟩ <;> simp [launchCampaign]

/-- Claim C10: both interactive confirmation loops — get_user_input and the
inline store-creation prompt of run_db_command — return only the exact
lowercase responses "y" or "n", and any other response (such as "Y", "N",
"yes", "no" or the empty string) is skipped with a re-prompt, leaving the
result unchanged. -/
theorem prompt_returns_yn (rs : List String) (r u : String)
    (h1 : r ≠ "y") (h2 : r ≠ "n") :
    (get_user_input rs = some u → u = "y" ∨ u = "n") ∧
    (dbCreatePrompt rs = some u → u = "y" ∨ u = "n") ∧
    get_user_input (r :: rs) = get_user_input rs ∧
    dbCreatePrompt (r :: rs) = dbCreatePrompt rs := by
  refine ⟨fun h => gui_spec rs u h, fun h => ?_, ?_, ?_⟩
  · rw [dbCreatePrompt_eq_gui] at h
    exact gui_spec rs u h
  · simp [get_user_input, h1, h2]
  · simp [dbCreatePrompt, h1, h2]

/-- Claim C10 (witness): the prompt skips "Y" and then, fed the stream
["yes", "", "n"], returns exactly "n", which is "y" or "n". -/
theorem prompt_returns_yn_witness :
    get_user_input ["Y", "yes", "", "n"] = get_user_input ["yes", "", "n"] ∧
    ("n" = "y" ∨ "n" = "n") :=
  ⟨(prompt_returns_yn ["yes", "", "n"] "Y" "n" (by decide) (by decide)).2.2.1,
   (prompt_returns_yn ["yes", "", "n"] "Y" "n" (by decide) (by decide)).1 rfl⟩
